import Mathlib

/-
Verification of the country-record resolution and geometry-enrichment
pipeline of app.py (Language Mapper).

The Python source is shallowly embedded:
  - feature property mappings become association lists of strings;
  - the two lookup dictionaries (rest_by_cca3, rest_by_name_lower) become
    association lists with Python-dict insertion semantics (overwrite in
    place on an existing key, append otherwise), so iteration order is
    insertion order as in CPython 3.7+;
  - calls into shapely / pyproj that may raise become Option-valued
    oracle fields on each feature: none models a raised exception, some v
    models a successful call returning v; the try/except nesting of the
    geometry analytics block (app.py lines 179-202) is reproduced exactly;
  - Python round(x, d) (round-half-to-even) becomes pyRoundTo over the
    rationals;
  - the transformer selection (get_transformer, app.py lines 118-126) is
    modelled over an environment recording, per target CRS string, whether
    Transformer.from_crs construction raises and whether the smoke
    transform of the origin raises; a constructed transformer is
    identified by its target CRS string.
-/

namespace LangMapper

/-! ## Basic value types -/

/-- A per-feature display value that is either the em-dash sentinel or a
number, mirroring the dynamically typed Python variables that hold either
a float or the string sentinel. -/
inductive Val where
| sentinel : Val
| num : ℚ → Val
deriving DecidableEq

/-- The bounding-box display value: either the sentinel or the rounded
SW/NE pairs produced by bbox_to_string. -/
inductive BBoxVal where
| sentinel : BBoxVal
| swne : ℚ → ℚ → ℚ → ℚ → BBoxVal
deriving DecidableEq

/-! ## Python rounding (round-half-to-even) over the rationals -/

/-- Python round to the nearest integer, ties to even (app.py uses
round(x, d) on floats; the tie rule is half-to-even). -/
def pyRound (q : ℚ) : ℤ :=
  if q - ⌊q⌋ < 1/2 then ⌊q⌋
  else if 1/2 < q - ⌊q⌋ then ⌊q⌋ + 1
  else if ⌊q⌋ % 2 = 0 then ⌊q⌋ else ⌊q⌋ + 1

/-- Python round(q, d) for d decimal digits. -/
def pyRoundTo (q : ℚ) (d : ℕ) : ℚ :=
  (pyRound (q * 10 ^ d) : ℚ) / 10 ^ d

/-! ## Python string case mapping and stripping (ASCII model) -/

/-- ASCII upper-casing of one character (model of Python str.upper). -/
def charUp (c : Char) : Char :=
  if 'a' ≤ c ∧ c ≤ 'z' then Char.ofNat (c.toNat - 32) else c

/-- ASCII lower-casing of one character (model of Python str.lower). -/
def charLow (c : Char) : Char :=
  if 'A' ≤ c ∧ c ≤ 'Z' then Char.ofNat (c.toNat + 32) else c

/-- Python s.upper() on the character list of a string. -/
def pyUpper (s : String) : String := ⟨s.data.map charUp⟩

/-- Python s.lower() on the character list of a string. -/
def pyLower (s : String) : String := ⟨s.data.map charLow⟩

/-- Python s.strip(): drop whitespace from both ends. -/
def pyStrip (s : String) : String :=
  ⟨((s.data.dropWhile Char.isWhitespace).reverse.dropWhile Char.isWhitespace).reverse⟩

/-! ## Property mappings and metadata records -/

/-- A GeoJSON feature property mapping (string keys to string values).
Python dict lookup is modelled by first-match association-list lookup. -/
abbrev Props := List (String × String)

/-- Python props.get(k): the value under the first binding of k. -/
def pget (props : Props) (k : String) : Option String :=
  match props with
  | [] => none
  | (k', v) :: rest => if k' = k then some v else pget rest k

/-- One REST Countries record, with exactly the fields app.py reads.
Absent JSON fields are none / []; name.common is nameCommon; flags is
the optional (png, svg) pair. -/
structure RestItem where
  cca3 : Option String
  nameCommon : Option String
  capital : List String
  region : Option String
  subregion : Option String
  population : Option Int
  currencies : List (String × Option String)
  timezones : List String
  languages : List (String × String)
  flags : Option (Option String × Option String)
deriving DecidableEq

/-- The lookup dictionaries rest_by_cca3 / rest_by_name_lower. -/
abbrev RDict := List (String × RestItem)

/-- Association-list lookup mirroring Python dict indexing. -/
def dlookup (d : RDict) (k : String) : Option RestItem :=
  match d with
  | [] => none
  | (k', v) :: rest => if k' = k then some v else dlookup rest k

/-- Python d[k] = v on an insertion-ordered dict: overwrite in place when
the key is present, append otherwise. -/
def dictInsert (d : RDict) (k : String) (v : RestItem) : RDict :=
  match d with
  | [] => [(k, v)]
  | (k', v') :: rest =>
    if k' = k then (k, v) :: rest else (k', v') :: dictInsert rest k v

/-! ## extract_iso3 (app.py lines 68-76) -/

/-- The fixed ordered key list of extract_iso3. -/
def iso3Keys : List String :=
  ["ISO_A3", "ISO3", "iso_a3", "ADM0_A3", "adm0_a3", "CCA3", "cca3", "ISO_A3_EH"]

/-- The for-loop of extract_iso3: return the first value under the keys
that is truthy and not the "-99" sentinel. -/
def extractIso3Loop (props : Props) : List String → Option String
  | [] => none
  | k :: ks =>
    match pget props k with
    | some v => if v ≠ "" ∧ v ≠ "-99" then some v else extractIso3Loop props ks
    | none => extractIso3Loop props ks

/-- extract_iso3(props): None on an empty/absent mapping, else the loop. -/
def extract_iso3 (props : Props) : Option String :=
  if props.isEmpty then none else extractIso3Loop props iso3Keys

/-- Declarative restatement of the claim about extract_iso3: the first
non-empty, non-sentinel value under the fixed key list, in key order. -/
def extract_iso3_claim (props : Props) : Option String :=
  iso3Keys.findSome? fun k =>
    match pget props k with
    | some v => if v ≠ "" ∧ v ≠ "-99" then some v else none
    | none => none

/-! ## Resolver (app.py lines 141-157) -/

/-- Python `a or b` restricted to optional strings: the first operand when
it is truthy (a non-empty string), otherwise the second operand. -/
def pyOrS (a b : Option String) : Option String :=
  match a with
  | some s => if s ≠ "" then some s else b
  | none => b

/-- The chain props.get("ADMIN") or props.get("NAME") or props.get("name"):
first truthy name property, if any. -/
def firstTruthyName (props : Props) : Option String :=
  pyOrS (pget props "ADMIN") (pyOrS (pget props "NAME") (pyOrS (pget props "name") none))

/-- geo_name = (ADMIN or NAME or name or "").strip() (app.py line 150). -/
def geoName (props : Props) : String :=
  pyStrip ((firstTruthyName props).getD "")

/-- The code-match half of the feature loop (app.py lines 143-147):
`if iso3 and rest_by_cca3: rest_obj = rest_by_cca3.get(str(iso3).upper())`. -/
def codeResolve (byCca3 : RDict) (props : Props) : Option RestItem :=
  match extract_iso3 props with
  | some c => if byCca3.isEmpty then none else dlookup byCca3 (pyUpper c)
  | none => none

/-- Whether the first character list starts with the second one. -/
def startsWithL : List Char → List Char → Bool
  | _, [] => true
  | [], _ :: _ => false
  | a :: as, b :: bs => a == b && startsWithL as bs

/-- Python substring containment `needle in hay` on character lists:
needle occurs contiguously somewhere in hay. -/
def containsSub (hay needle : List Char) : Bool :=
  match hay with
  | [] => needle.isEmpty
  | _ :: rest => startsWithL hay needle || containsSub rest needle

/-- The name-match half of the feature loop (app.py lines 149-157): exact
lower-cased lookup, then the linear substring scan over dict items. -/
def nameResolve (byName : RDict) (props : Props) : Option RestItem :=
  if byName.isEmpty then none
  else
    let g := geoName props
    if g ≠ "" then
      match dlookup byName (pyLower g) with
      | some o => some o
      | none =>
        (byName.find? fun p => containsSub p.1.toList (pyLower g).toList).map
          fun p => p.2
    else none

/-- resolve(feature): code match first; name matching only when the code
match produced nothing (app.py lines 141-157). -/
def resolve (byCca3 byName : RDict) (props : Props) : Option RestItem :=
  match codeResolve byCca3 props with
  | some o => some o
  | none => nameResolve byName props

/-! ## Index building (app.py lines 107-115) -/

/-- The key a record contributes to rest_by_cca3 (upper-cased cca3, when
truthy), by the guard `if cca3:`. -/
def codeKeyOf (it : RestItem) : Option String :=
  match it.cca3 with
  | some c => if c ≠ "" then some (pyUpper c) else none
  | none => none

/-- The key a record contributes to rest_by_name_lower (lower-cased
common name, when truthy). -/
def nameKeyOf (it : RestItem) : Option String :=
  match it.nameCommon with
  | some nm => if nm ≠ "" then some (pyLower nm) else none
  | none => none

/-- One iteration of the index-building for-loop over rest_all. -/
def indexStep (acc : RDict × RDict) (item : RestItem) : RDict × RDict :=
  let acc1 :=
    match codeKeyOf item with
    | some k => dictInsert acc.1 k item
    | none => acc.1
  let acc2 :=
    match nameKeyOf item with
    | some k => dictInsert acc.2 k item
    | none => acc.2
  (acc1, acc2)

/-- The index-building loop: (rest_by_cca3, rest_by_name_lower). -/
def buildIndices (items : List RestItem) : RDict × RDict :=
  items.foldl indexStep ([], [])

/-- The last record in list order contributing a given key (the record a
last-write-wins dict build leaves under that key). -/
def lastWith (f : RestItem → Option String) (key : String) : List RestItem → Option RestItem
  | [] => none
  | it :: rest =>
    match lastWith f key rest with
    | some r => some r
    | none => if f it = some key then some it else none

/-! ## Transformer selection (app.py lines 118-128) -/

/-- Deterministic behaviour of pyproj for this process: per target CRS
string, whether Transformer.from_crs("EPSG:4326", tgt) raises (ctorOk
false) and whether transformer.transform(0, 0) raises (smokeOk false). -/
structure TransformerEnv where
  ctorOk : String → Bool
  smokeOk : String → Bool

/-- The ordered candidate list of get_transformer. -/
def crsCandidates : List String := ["EPSG:6933", "ESRI:54009", "EPSG:3857"]

/-- The for-loop of get_transformer: first candidate whose construction
and smoke transform both succeed, as (transformer, used_crs); a
transformer is identified by its target CRS string. -/
def transformerLoop (env : TransformerEnv) : List String → Option (String × String)
  | [] => none
  | t :: ts =>
    if env.ctorOk t && env.smokeOk t then some (t, t) else transformerLoop env ts

/-- get_transformer(): the loop, then the unconditional final
`return Transformer.from_crs("EPSG:4326", "EPSG:3857"), "EPSG:3857"`,
which is outside any try block, so a construction failure there escapes
(modelled as Except.error). -/
def get_transformer (env : TransformerEnv) : Except Unit (String × String) :=
  match transformerLoop env crsCandidates with
  | some r => Except.ok r
  | none =>
    if env.ctorOk "EPSG:3857" then Except.ok ("EPSG:3857", "EPSG:3857")
    else Except.error ()

/-! ## Geometry analytics (app.py lines 178-202) -/

/-- The values shapely produces for one feature when nothing raises:
centroid coordinates and the bounds tuple (minx, miny, maxx, maxy). -/
structure ParsedGeom where
  centroidX : ℚ
  centroidY : ℚ
  minx : ℚ
  miny : ℚ
  maxx : ℚ
  maxy : ℚ
deriving DecidableEq

/-- Oracle for the external geometry calls on one feature: parsed is none
when shape/centroid/bounds raises (the outer try), primaryAreaM2 is the
projected area in square meters through the selected transformer (none
when that projection raises), fallbackAreaM2 likewise for the fresh
EPSG:3857 fallback transformer built inside the except handler (none when
its construction or projection raises). -/
structure GeomOracle where
  parsed : Option ParsedGeom
  primaryAreaM2 : Option ℚ
  fallbackAreaM2 : Option ℚ
deriving DecidableEq

/-- bbox_to_string(bounds) (app.py lines 87-89), kept structured: the
rounded SW pair (miny, minx) then the rounded NE pair (maxy, maxx). -/
def bbox_to_string (minx miny maxx maxy : ℚ) : BBoxVal :=
  BBoxVal.swne (pyRoundTo miny 4) (pyRoundTo minx 4) (pyRoundTo maxy 4) (pyRoundTo maxx 4)

/-- The per-feature geometry display values. -/
structure GeomResult where
  areaSqkm : Val
  centroidLat : Val
  centroidLon : Val
  bboxStr : BBoxVal
deriving DecidableEq

/-- The all-sentinel geometry result assigned by the outer except handler
(app.py lines 199-202) and by the initial defaults. -/
def sentinelGeom : GeomResult :=
  ⟨Val.sentinel, Val.sentinel, Val.sentinel, BBoxVal.sentinel⟩

/-- The geometry analytics block (app.py lines 178-202) with its exact
try/except nesting: an exception in the inner fallback branch propagates
to the outer handler, which resets centroid, bbox and area together. -/
def geometryAnalytics (g : GeomOracle) : GeomResult :=
  match g.parsed with
  | none => sentinelGeom
  | some p =>
    let lon := Val.num (pyRoundTo p.centroidX 6)
    let lat := Val.num (pyRoundTo p.centroidY 6)
    let bb := bbox_to_string p.minx p.miny p.maxx p.maxy
    match g.primaryAreaM2 with
    | some a => ⟨Val.num (pyRoundTo (a / 1000000) 2), lat, lon, bb⟩
    | none =>
      match g.fallbackAreaM2 with
      | some a => ⟨Val.num (pyRoundTo (a / 1000000) 2), lat, lon, bb⟩
      | none => sentinelGeom

/-! ## Display-record assembly (app.py lines 159-207) -/

/-- f"{int(n):,}" digit grouping: commas every three digits from the
right; input is the reversed digit list. -/
def commaGroup (ds : List Char) : List Char :=
  if _h : ds.length ≤ 3 then ds
  else ds.take 3 ++ ',' :: commaGroup (ds.drop 3)
termination_by ds.length
decreasing_by simp [List.length_drop]; omega

/-- fmt_num(n) for an integer argument: thousands-separated decimal. -/
def fmtNum (n : Int) : String :=
  (if n < 0 then "-" else "") ++
    String.mk ((commaGroup (Nat.repr n.natAbs).toList.reverse).reverse)

/-- population_html = fmt_num(population) if population else "—"
(app.py line 207): 0 and None are both falsy. -/
def populationHtml (pop : Option Int) : String :=
  match pop with
  | some n => if n ≠ 0 then fmtNum n else "—"
  | none => "—"

/-- One GeoJSON feature: its property mapping plus the oracle for the
external geometry calls on its geometry. -/
structure Feature where
  props : Props
  geom : GeomOracle
deriving DecidableEq

/-- The per-feature display record assembled by the loop body. -/
structure DisplayRecord where
  displayName : Option String
  iso3Display : Option String
  capital : String
  region : Option String
  subregion : Option String
  population : Option Int
  currenciesHtml : String
  timezonesHtml : String
  languagesHtml : String
  popHtml : String
  flagPng : Option String
  geo : GeomResult
deriving DecidableEq

/-- One iteration of the feature loop (app.py lines 141-207): resolve,
geometry analytics, then the display fields with their truthiness guards. -/
def enrichFeature (byCca3 byName : RDict) (f : Feature) : DisplayRecord :=
  let props := f.props
  let rest_obj := resolve byCca3 byName props
  let iso3 := extract_iso3 props
  let displayName : Option String :=
    match rest_obj with
    | some r => r.nameCommon
    | none => some ((firstTruthyName props).getD "Country")
  let iso3Display : Option String :=
    match rest_obj with
    | some r => r.cca3
    | none => some (iso3.getD "—")
  let capital : String :=
    match rest_obj with
    | some r => if r.capital ≠ [] then String.intercalate ", " r.capital else "—"
    | none => "—"
  let region : Option String :=
    match rest_obj with
    | some r => r.region
    | none => some "—"
  let subregion : Option String :=
    match rest_obj with
    | some r => r.subregion
    | none => some "—"
  let population : Option Int :=
    match rest_obj with
    | some r => r.population
    | none => none
  let currencies : List String :=
    match rest_obj with
    | some r =>
      if r.currencies ≠ [] then
        r.currencies.map fun ci =>
          match ci.2 with
          | some nm => if nm ≠ "" then nm ++ " (" ++ ci.1 ++ ")" else ci.1
          | none => ci.1
      else []
    | none => []
  let timezones : List String :=
    match rest_obj with
    | some r => r.timezones
    | none => []
  let languages : List String :=
    match rest_obj with
    | some r => if r.languages ≠ [] then r.languages.map (fun p => p.2) else []
    | none => []
  let flagPng : Option String :=
    match rest_obj with
    | some r =>
      match r.flags with
      | some fl => pyOrS fl.1 fl.2
      | none => none
    | none => none
  { displayName := displayName
    iso3Display := iso3Display
    capital := capital
    region := region
    subregion := subregion
    population := population
    currenciesHtml := if currencies ≠ [] then String.intercalate ", " currencies else "—"
    timezonesHtml := if timezones ≠ [] then String.intercalate ", " timezones else "—"
    languagesHtml := if languages ≠ [] then String.intercalate ", " languages else "—"
    popHtml := populationHtml population
    flagPng := flagPng
    geo := geometryAnalytics f.geom }

/-- The whole feature loop: sequential accumulation over the features, in
input order (app.py line 141). -/
def enrichAll (byCca3 byName : RDict) (fs : List Feature) : List DisplayRecord :=
  fs.foldl (fun acc f => acc ++ [enrichFeature byCca3 byName f]) []

/-! ## Concrete data used by witnesses and counterexamples -/

/-- A France-like metadata record. -/
def franceItem : RestItem :=
  { cca3 := some "FRA"
    nameCommon := some "France"
    capital := ["Paris"]
    region := some "Europe"
    subregion := some "Western Europe"
    population := some 67000000
    currencies := [("EUR", some "Euro")]
    timezones := ["UTC+01:00"]
    languages := [("fra", "French")]
    flags := some (some "fr.png", none) }

/-- A Kosovo-like metadata record, reachable only through name matching. -/
def kosovoItem : RestItem :=
  { cca3 := some "XKX"
    nameCommon := some "Republic of Kosovo"
    capital := ["Pristina"]
    region := some "Europe"
    subregion := some "Southeast Europe"
    population := some 1800000
    currencies := [("EUR", some "Euro")]
    timezones := ["UTC+01:00"]
    languages := [("sqi", "Albanian")]
    flags := none }

/-- A record whose population field is present and equal to 0. -/
def zeroPopItem : RestItem :=
  { cca3 := some "VAT"
    nameCommon := some "Vatican City"
    capital := ["Vatican City"]
    region := some "Europe"
    subregion := some "Southern Europe"
    population := some 0
    currencies := []
    timezones := []
    languages := []
    flags := none }

/-- A geometry oracle for a malformed/null geometry: parsing raises. -/
def nullGeomOracle : GeomOracle := ⟨none, none, none⟩

/-- A geometry that parses but whose area computation raises under both
the selected transformer and the EPSG:3857 fallback. -/
def doubleAreaFailOracle : GeomOracle :=
  ⟨some ⟨1, 2, 0, 0, 1, 1⟩, none, none⟩

/-- A geometry whose primary area raises but whose EPSG:3857 fallback
succeeds with 5 000 000 square meters. -/
def areaFallbackOracle : GeomOracle :=
  ⟨some ⟨1, 2, 0, 0, 1, 1⟩, none, some 5000000⟩

/-- A geometry with a successful primary area, used for the bbox claim. -/
def bboxOracle : GeomOracle :=
  ⟨some ⟨0, 0, 0, 0, 1, 1⟩, some 2000000, none⟩

/-- A pyproj environment in which every construction raises. -/
def deadEnv : TransformerEnv := ⟨fun _ => false, fun _ => false⟩

/-! ## Helper lemmas -/

/-- The extract_iso3 for-loop is the first-hit scan over its key list. -/
theorem extractIso3Loop_eq_findSome (props : Props) (ks : List String) :
    extractIso3Loop props ks = ks.findSome? (fun k =>
      match pget props k with
      | some v => if v ≠ "" ∧ v ≠ "-99" then some v else none
      | none => none) := by
  induction ks with
  | nil => rfl
  | cons k ks ih =>
    rw [List.findSome?_cons]
    unfold extractIso3Loop
    cases hpk : pget props k with
    | none => simpa using ih
    | some v =>
      by_cases hv : v ≠ "" ∧ v ≠ "-99" <;> simp [hv, ih]

/-- pyRound is at least the floor. -/
theorem le_pyRound (q : ℚ) : ⌊q⌋ ≤ pyRound q := by
  unfold pyRound
  split_ifs <;> omega

/-- pyRound is at most the floor plus one. -/
theorem pyRound_le (q : ℚ) : pyRound q ≤ ⌊q⌋ + 1 := by
  unfold pyRound
  split_ifs <;> omega

/-- Round-half-to-even is monotone. -/
theorem pyRound_mono {x y : ℚ} (h : x ≤ y) : pyRound x ≤ pyRound y := by
  have hf : ⌊x⌋ ≤ ⌊y⌋ := Int.floor_le_floor h
  rcases eq_or_lt_of_le hf with heq | hlt
  · have hxy : x - ⌊x⌋ ≤ y - ⌊x⌋ := by linarith
    unfold pyRound
    rw [← heq]
    split_ifs <;> first | omega | linarith
  · calc pyRound x ≤ ⌊x⌋ + 1 := pyRound_le x
      _ ≤ ⌊y⌋ := by omega
      _ ≤ pyRound y := le_pyRound y

/-- Rounding to d decimal digits is monotone. -/
theorem pyRoundTo_mono (d : ℕ) {x y : ℚ} (h : x ≤ y) :
    pyRoundTo x d ≤ pyRoundTo y d := by
  unfold pyRoundTo
  have hpow : (0 : ℚ) < 10 ^ d := by positivity
  have h1 : x * 10 ^ d ≤ y * 10 ^ d := mul_le_mul_of_nonneg_right h (le_of_lt hpow)
  have h2 : ((pyRound (x * 10 ^ d) : ℤ) : ℚ) ≤ ((pyRound (y * 10 ^ d) : ℤ) : ℚ) := by
    exact_mod_cast pyRound_mono h1
  exact (div_le_div_iff_of_pos_right hpow).mpr h2

/-- The feature loop accumulation is a map over the features. -/
theorem enrichAll_eq_map (byCca3 byName : RDict) (fs : List Feature) :
    enrichAll byCca3 byName fs = fs.map (enrichFeature byCca3 byName) := by
  unfold enrichAll
  suffices h : ∀ acc, fs.foldl (fun acc f => acc ++ [enrichFeature byCca3 byName f]) acc =
      acc ++ fs.map (enrichFeature byCca3 byName) by
    simpa using h []
  induction fs with
  | nil => intro acc; simp
  | cons f fs ih => intro acc; simp [ih]

/-- The transformer loop returns the first candidate passing both checks. -/
theorem transformerLoop_eq_find (env : TransformerEnv) (l : List String) :
    transformerLoop env l =
      (l.find? fun t => env.ctorOk t && env.smokeOk t).map (fun t => (t, t)) := by
  induction l with
  | nil => rfl
  | cons t ts ih =>
    unfold transformerLoop
    cases h : (env.ctorOk t && env.smokeOk t) <;> simp [List.find?_cons, h, ih]

/-- Lookup after a Python-style dict insertion. -/
theorem dlookup_dictInsert (d : RDict) (k : String) (v : RestItem) (k' : String) :
    dlookup (dictInsert d k v) k' = if k = k' then some v else dlookup d k' := by
  induction d with
  | nil => simp [dictInsert, dlookup]
  | cons p rest ih =>
    obtain ⟨pk, pv⟩ := p
    unfold dictInsert
    by_cases h : pk = k
    · subst h
      by_cases h2 : pk = k' <;> simp [dlookup, h2]
    · rw [if_neg h]
      by_cases h2 : pk = k'
      · subst h2
        have : ¬ k = pk := fun hk => h hk.symm
        simp [dlookup, this]
      · simp [dlookup, h2, ih]

/-- Looking up the first index component after one loop iteration. -/
theorem indexStep_fst_lookup (acc : RDict × RDict) (it : RestItem) (c : String) :
    dlookup (indexStep acc it).1 c =
      if codeKeyOf it = some c then some it else dlookup acc.1 c := by
  unfold indexStep
  cases hk : codeKeyOf it with
  | none => simp [hk]
  | some k =>
    simp only [hk]
    rw [dlookup_dictInsert]
    by_cases hkc : k = c
    · subst hkc; simp
    · simp [hkc]

/-- Looking up the second index component after one loop iteration. -/
theorem indexStep_snd_lookup (acc : RDict × RDict) (it : RestItem) (n : String) :
    dlookup (indexStep acc it).2 n =
      if nameKeyOf it = some n then some it else dlookup acc.2 n := by
  unfold indexStep
  cases hk : nameKeyOf it with
  | none => simp [hk]
  | some k =>
    simp only [hk]
    rw [dlookup_dictInsert]
    by_cases hkc : k = n
    · subst hkc; simp
    · simp [hkc]

/-- Folding the index-building loop from any accumulator: the last record
contributing a key wins, and otherwise the accumulator answers. -/
theorem buildFold_fst_lookup (items : List RestItem) (acc : RDict × RDict) (c : String) :
    dlookup (items.foldl indexStep acc).1 c =
      match lastWith codeKeyOf c items with
      | some r => some r
      | none => dlookup acc.1 c := by
  induction items generalizing acc with
  | nil => rfl
  | cons it rest ih =>
    rw [List.foldl_cons, ih (indexStep acc it)]
    simp only [lastWith]
    cases h : lastWith codeKeyOf c rest
    · rw [indexStep_fst_lookup]
      by_cases hk : codeKeyOf it = some c <;> simp [hk]
    · rfl

/-- Same for the name index component. -/
theorem buildFold_snd_lookup (items : List RestItem) (acc : RDict × RDict) (n : String) :
    dlookup (items.foldl indexStep acc).2 n =
      match lastWith nameKeyOf n items with
      | some r => some r
      | none => dlookup acc.2 n := by
  induction items generalizing acc with
  | nil => rfl
  | cons it rest ih =>
    rw [List.foldl_cons, ih (indexStep acc it)]
    simp only [lastWith]
    cases h : lastWith nameKeyOf n rest
    · rw [indexStep_snd_lookup]
      by_cases hk : nameKeyOf it = some n <;> simp [hk]
    · rfl

/-- Code-index lookup is the last matching record. -/
theorem buildIndices_fst_lookup (items : List RestItem) (c : String) :
    dlookup (buildIndices items).1 c = lastWith codeKeyOf c items := by
  unfold buildIndices
  rw [buildFold_fst_lookup]
  cases h : lastWith codeKeyOf c items <;> rfl

/-- Name-index lookup is the last matching record. -/
theorem buildIndices_snd_lookup (items : List RestItem) (n : String) :
    dlookup (buildIndices items).2 n = lastWith nameKeyOf n items := by
  unfold buildIndices
  rw [buildFold_snd_lookup]
  cases h : lastWith nameKeyOf n items <;> rfl

/-- A member contributing a key makes lastWith succeed on that key. -/
theorem lastWith_isSome (f : RestItem → Option String) (key : String)
    (items : List RestItem) (it : RestItem)
    (hmem : it ∈ items) (hk : f it = some key) :
    (lastWith f key items).isSome = true := by
  induction items with
  | nil => cases hmem
  | cons a rest ih =>
    simp only [lastWith]
    cases h : lastWith f key rest
    · rcases List.mem_cons.mp hmem with rfl | hmem'
      · simp [hk]
      · have h2 := ih hmem'
        rw [h] at h2
        simp at h2
    · simp

/-! ## Claim theorems -/

/-- C6: extract_iso3 scans the fixed key list ISO_A3, ISO3, iso_a3,
ADM0_A3, adm0_a3, CCA3, cca3, ISO_A3_EH in order and returns the first
non-empty value different from the sentinel "-99"; on an empty mapping,
or when no key yields such a value, it returns none. -/
theorem C6_extract_iso3_first_valid (props : Props) :
    extract_iso3 props = extract_iso3_claim props := by
  unfold extract_iso3 extract_iso3_claim
  by_cases h : props.isEmpty = true
  · rw [List.isEmpty_iff.mp h]
    rfl
  · rw [if_neg (by simpa using h)]
    exact extractIso3Loop_eq_findSome props iso3Keys

/-- C1: when a candidate ISO3 code is extracted and its upper-cased form
is a key of the code index, resolve returns exactly the record stored
under that code; the conclusion holds for every name index and every
name-property content, so name matching is never consulted. -/
theorem C1_code_match_short_circuits (byCca3 byName : RDict) (props : Props)
    (c : String) (r : RestItem)
    (hc : extract_iso3 props = some c)
    (hr : dlookup byCca3 (pyUpper c) = some r) :
    resolve byCca3 byName props = some r := by
  have hne : byCca3.isEmpty = false := by
    cases byCca3 with
    | nil => simp [dlookup] at hr
    | cons a l => rfl
  unfold resolve codeResolve
  rw [hc]
  simp [hne, hr]

/-- Witness for C1: an ADM0_A3 = "FRA" feature resolves to the indexed
France record, with an empty name index. -/
theorem C1_witness :
    resolve [("FRA", franceItem)] [] [("ADM0_A3", "FRA")] = some franceItem :=
  C1_code_match_short_circuits [("FRA", franceItem)] [] [("ADM0_A3", "FRA")]
    "FRA" franceItem (by decide) (by decide)

/-- C3: with no code match and a non-empty candidate name, resolve
performs the exact lower-cased name lookup first, and only on its failure
returns the first index entry (in iteration order) whose key contains the
candidate name as a substring. -/
theorem C3_name_exact_then_substring (byCca3 byName : RDict) (props : Props)
    (hcode : codeResolve byCca3 props = none)
    (hname : geoName props ≠ "") :
    resolve byCca3 byName props =
      match dlookup byName (pyLower (geoName props)) with
      | some o => some o
      | none =>
        (byName.find? fun p => containsSub p.1.toList (pyLower (geoName props)).toList).map
          fun p => p.2 := by
  unfold resolve
  rw [hcode]
  by_cases hbn : byName.isEmpty = true
  · rw [List.isEmpty_iff.mp hbn]
    simp [nameResolve, dlookup, List.find?]
  · have hbn' : byName.isEmpty = false := by simpa using hbn
    simp [nameResolve, hbn', hname]

/-- Witness for C3: the Kosovo scenario — ISO_A3 is the "-99" sentinel,
"Kosovo" has no exact match, and the substring scan returns the record
whose name key is "republic of kosovo". -/
theorem C3_witness :
    resolve [] [("republic of kosovo", kosovoItem)]
        [("ISO_A3", "-99"), ("ADMIN", "Kosovo")] = some kosovoItem := by
  rw [C3_name_exact_then_substring [] [("republic of kosovo", kosovoItem)]
    [("ISO_A3", "-99"), ("ADMIN", "Kosovo")] (by decide) (by decide)]
  decide

/-- C2 counterexample: a geometry that parses (centroid and bounds were
computed) but whose area computation raises under both the selected
transformer and the EPSG:3857 fallback ends with centroid, bbox AND area
all reset to the sentinel by the outer except handler, refuting the claim
that only the area field becomes the sentinel in that case. -/
theorem C2_counterexample :
    doubleAreaFailOracle.parsed = some ⟨1, 2, 0, 0, 1, 1⟩ ∧
    doubleAreaFailOracle.primaryAreaM2 = none ∧
    doubleAreaFailOracle.fallbackAreaM2 = none ∧
    geometryAnalytics doubleAreaFailOracle = sentinelGeom ∧
    (geometryAnalytics doubleAreaFailOracle).centroidLat = Val.sentinel ∧
    (geometryAnalytics doubleAreaFailOracle).bboxStr = BBoxVal.sentinel :=
  ⟨rfl, rfl, rfl, rfl, rfl, rfl⟩

/-- C2 amended: when the geometry parses and the primary area computation
raises, the area is recomputed with the unconditional EPSG:3857 fallback
transformer; on fallback success the already-computed centroid and bbox
are kept and the fallback area is used; if the fallback also raises, the
exception reaches the outer handler and centroid, bbox and area are ALL
set to the sentinel (they are not independent in the double-failure
case). -/
theorem C2_area_fallback (g : GeomOracle) (p : ParsedGeom)
    (hp : g.parsed = some p) (hprim : g.primaryAreaM2 = none) :
    geometryAnalytics g =
      match g.fallbackAreaM2 with
      | some a =>
        ⟨Val.num (pyRoundTo (a / 1000000) 2), Val.num (pyRoundTo p.centroidY 6),
          Val.num (pyRoundTo p.centroidX 6), bbox_to_string p.minx p.miny p.maxx p.maxy⟩
      | none => sentinelGeom := by
  unfold geometryAnalytics
  rw [hp, hprim]

/-- Witness for C2: primary failure with a successful fallback keeps
centroid and bbox and uses the fallback area. -/
theorem C2_witness :
    geometryAnalytics areaFallbackOracle =
      match areaFallbackOracle.fallbackAreaM2 with
      | some a =>
        ⟨Val.num (pyRoundTo (a / 1000000) 2), Val.num (pyRoundTo 2 6),
          Val.num (pyRoundTo 1 6), bbox_to_string 0 0 1 1⟩
      | none => sentinelGeom :=
  C2_area_fallback areaFallbackOracle ⟨1, 2, 0, 0, 1, 1⟩ rfl rfl

/-- C4: a malformed or null geometry (the parse/centroid/bounds stage
raises) yields the sentinel for centroid, bbox and area; the embedding is
total, so no exception escapes the per-feature block, and the loop output
decomposes around the failing feature, so processing continues with the
next feature. -/
theorem C4_malformed_geometry (g : GeomOracle) (byCca3 byName : RDict)
    (props : Props) (fs1 fs2 : List Feature)
    (hg : g.parsed = none) :
    geometryAnalytics g = sentinelGeom ∧
    enrichAll byCca3 byName (fs1 ++ Feature.mk props g :: fs2) =
      enrichAll byCca3 byName fs1 ++
        enrichFeature byCca3 byName (Feature.mk props g) :: enrichAll byCca3 byName fs2 := by
  constructor
  · unfold geometryAnalytics
    rw [hg]
  · simp [enrichAll_eq_map]

/-- Witness for C4 at a concrete null-geometry feature. -/
theorem C4_witness :
    geometryAnalytics nullGeomOracle = sentinelGeom ∧
    enrichAll [] [] ([] ++ Feature.mk [] nullGeomOracle :: []) =
      enrichAll [] [] [] ++
        enrichFeature [] [] (Feature.mk [] nullGeomOracle) :: enrichAll [] [] [] :=
  C4_malformed_geometry nullGeomOracle [] [] [] [] [] rfl

/-- C5 counterexample: in an environment where every
Transformer.from_crs construction raises, the final unconditional
fallback construction (outside any try) raises as well, so
get_transformer raises instead of returning an EPSG:3857 transformer. -/
theorem C5_counterexample :
    get_transformer deadEnv = Except.error () := rfl

/-- C5 amended: get_transformer tries EPSG:6933, ESRI:54009, EPSG:3857 in
order, constructing and smoke-transforming the origin for each, and
returns the first fully succeeding candidate with used_crs equal to that
candidate (so if the first raises and the second succeeds, used_crs is
the second); if all three fail it unconditionally re-constructs an
EPSG:3857 transformer without a smoke test and returns it with identifier
"EPSG:3857" when that construction succeeds, but when the construction
itself raises the exception escapes get_transformer. -/
theorem C5_transformer_selection (env : TransformerEnv) :
    get_transformer env =
      match crsCandidates.find? (fun t => env.ctorOk t && env.smokeOk t) with
      | some t => Except.ok (t, t)
      | none =>
        if env.ctorOk "EPSG:3857" then Except.ok ("EPSG:3857", "EPSG:3857")
        else Except.error () := by
  unfold get_transformer
  rw [transformerLoop_eq_find]
  cases h : crsCandidates.find? (fun t => env.ctorOk t && env.smokeOk t) <;> simp

/-- C7: after the index-building pass, looking any key up in either index
returns the LAST record in list order contributing that key (last write
wins), and every record with a truthy cca3 (resp. common name) is present
under its upper-cased code (resp. lower-cased name). -/
theorem C7_index_invariant (items : List RestItem) (c n : String) :
    dlookup (buildIndices items).1 c = lastWith codeKeyOf c items ∧
    dlookup (buildIndices items).2 n = lastWith nameKeyOf n items ∧
    (∀ it ∈ items, ∀ k, codeKeyOf it = some k →
      ∃ r, dlookup (buildIndices items).1 k = some r) ∧
    (∀ it ∈ items, ∀ k, nameKeyOf it = some k →
      ∃ r, dlookup (buildIndices items).2 k = some r) := by
  refine ⟨buildIndices_fst_lookup items c, buildIndices_snd_lookup items n, ?_, ?_⟩
  · intro it hmem k hk
    rw [buildIndices_fst_lookup items k]
    exact Option.isSome_iff_exists.mp (lastWith_isSome codeKeyOf k items it hmem hk)
  · intro it hmem k hk
    rw [buildIndices_snd_lookup items k]
    exact Option.isSome_iff_exists.mp (lastWith_isSome nameKeyOf k items it hmem hk)

/-- Witness for C7 on a concrete two-record metadata list. -/
theorem C7_witness :
    dlookup (buildIndices [franceItem, zeroPopItem]).1 "FRA" =
      lastWith codeKeyOf "FRA" [franceItem, zeroPopItem] ∧
    (∃ r, dlookup (buildIndices [franceItem, zeroPopItem]).1 "VAT" = some r) :=
  ⟨(C7_index_invariant [franceItem, zeroPopItem] "FRA" "x").1,
    (C7_index_invariant [franceItem, zeroPopItem] "FRA" "x").2.2.1 zeroPopItem
      (by simp) "VAT" (by decide)⟩

/-- C8: the enrichment pass is a pure function of the feature list and
the indices (the transformer behaviour being part of each feature oracle):
running it twice gives identical outputs, the output is a map over the
features (no cross-feature state), and the output around any feature
decomposes positionally; the indices are values and are never mutated. -/
theorem C8_enrich_all_pure (byCca3 byName : RDict) (fs fs2 : List Feature) (f : Feature) :
    enrichAll byCca3 byName fs = enrichAll byCca3 byName fs ∧
    enrichAll byCca3 byName fs = fs.map (enrichFeature byCca3 byName) ∧
    enrichAll byCca3 byName (fs ++ f :: fs2) =
      enrichAll byCca3 byName fs ++
        enrichFeature byCca3 byName f :: enrichAll byCca3 byName fs2 :=
  ⟨rfl, enrichAll_eq_map byCca3 byName fs, by simp [enrichAll_eq_map]⟩

/-- C9: when the geometry computation succeeds (the produced bbox is not
the sentinel) and the shapely bounds satisfy the envelope property
minx ≤ maxx and miny ≤ maxy (a guarantee of the external library, taken
as a hypothesis on the oracle), the produced bounding box is the rounded
bounds and satisfies west ≤ east and south ≤ north. -/
theorem C9_bbox_ordered (g : GeomOracle) (p : ParsedGeom)
    (hp : g.parsed = some p) (hx : p.minx ≤ p.maxx) (hy : p.miny ≤ p.maxy)
    (hnb : (geometryAnalytics g).bboxStr ≠ BBoxVal.sentinel) :
    (geometryAnalytics g).bboxStr =
      BBoxVal.swne (pyRoundTo p.miny 4) (pyRoundTo p.minx 4)
        (pyRoundTo p.maxy 4) (pyRoundTo p.maxx 4) ∧
    pyRoundTo p.minx 4 ≤ pyRoundTo p.maxx 4 ∧
    pyRoundTo p.miny 4 ≤ pyRoundTo p.maxy 4 := by
  refine ⟨?_, pyRoundTo_mono 4 hx, pyRoundTo_mono 4 hy⟩
  unfold geometryAnalytics at hnb ⊢
  rw [hp] at hnb ⊢
  cases hpa : g.primaryAreaM2 with
  | some a => simp [hpa, bbox_to_string]
  | none =>
    cases hfa : g.fallbackAreaM2 with
    | some a => simp [hpa, hfa, bbox_to_string]
    | none =>
      rw [hpa, hfa] at hnb
      simp [sentinelGeom] at hnb

/-- Witness for C9 at a concrete successfully analysed geometry. -/
theorem C9_witness :
    (geometryAnalytics bboxOracle).bboxStr =
      BBoxVal.swne (pyRoundTo 0 4) (pyRoundTo 0 4) (pyRoundTo 1 4) (pyRoundTo 1 4) ∧
    pyRoundTo 0 4 ≤ pyRoundTo 1 4 ∧
    pyRoundTo 0 4 ≤ pyRoundTo 1 4 :=
  C9_bbox_ordered bboxOracle ⟨0, 0, 0, 0, 1, 1⟩ rfl (by norm_num) (by norm_num)
    (by decide)

/-- C10: a resolved record whose population field is present and equal to
0 is displayed as the em-dash sentinel, not as "0": the guard tests
truthiness, and 0 is falsy in Python. -/
theorem C10_zero_population (byCca3 byName : RDict) (f : Feature) (r : RestItem)
    (hr : resolve byCca3 byName f.props = some r) (hp : r.population = some 0) :
    (enrichFeature byCca3 byName f).popHtml = "—" ∧
    (enrichFeature byCca3 byName f).popHtml ≠ "0" := by
  have h : (enrichFeature byCca3 byName f).popHtml = "—" := by
    simp only [enrichFeature]
    rw [hr]
    show populationHtml r.population = "—"
    rw [hp]
    rfl
  exact ⟨h, by rw [h]; decide⟩

/-- Witness for C10: a feature resolving to the zero-population record
displays the dash. -/
theorem C10_witness :
    (enrichFeature [("VAT", zeroPopItem)] [] ⟨[("ISO_A3", "VAT")], nullGeomOracle⟩).popHtml = "—" ∧
    (enrichFeature [("VAT", zeroPopItem)] [] ⟨[("ISO_A3", "VAT")], nullGeomOracle⟩).popHtml ≠ "0" :=
  C10_zero_population [("VAT", zeroPopItem)] [] ⟨[("ISO_A3", "VAT")], nullGeomOracle⟩
    zeroPopItem (by decide) rfl

end LangMapper
